import Mathlib

/-!
Verification of the `data-mirror` command-line dispatcher
(`src/application/data-connectors/data-mirror/src/main.rs`).

The Rust source declares three `argh::FromArgs` records (`Cli`, `EgressCmd`,
`IngressCmd`) and a `main` that parses the process arguments via
`argh::from_env` and prints one status line per subcommand.  The data model
below mirrors those declarations directly; the parsing functions embed the
behaviour of the external `argh` crate (`parse_struct_args` together with
`from_env`) as instantiated by the attributes in the source: a required
subcommand chosen among the literal names `egress` and `ingress`, one
string-valued option `--type` per subcommand with default `postgres`, the
built-in help triggers `--help` and `help` (which print the generated help
text to standard output and exit with status 0), the option terminator `--`,
and usage errors printed to standard error with exit status 1.
-/

namespace DataMirror

/-- Mirrors `struct EgressCmd` (main.rs lines 17-24): the `egress`
subcommand record, holding the database-type string `type_`. -/
structure EgressCmd where
  type_ : String
  deriving Repr, DecidableEq

/-- Mirrors `struct IngressCmd` (main.rs lines 26-33): the `ingress`
subcommand record, holding the database-type string `type_`. -/
structure IngressCmd where
  type_ : String
  deriving Repr, DecidableEq

/-- Mirrors `enum Commands` (main.rs lines 10-15): the tagged union of the
two subcommands. -/
inductive Commands where
  | Egress : EgressCmd → Commands
  | Ingress : IngressCmd → Commands
  deriving Repr, DecidableEq

/-- Mirrors `struct Cli` (main.rs lines 3-8): the root invocation record,
holding exactly one field `command`. -/
structure Cli where
  command : Commands
  deriving Repr, DecidableEq

/-- The resolved database-type string of a parsed command (the `type_`
field of whichever variant is present). -/
def Commands.typeOf : Commands → String
  | Commands.Egress c => c.type_
  | Commands.Ingress c => c.type_

/-- Early termination of argument parsing, mirroring `argh::EarlyExit`:
`helpText` carries `status = Ok` (output goes to standard output, process
exits 0); `usageError` carries `status = Err` (output goes to standard
error, process exits 1). -/
inductive EarlyExit where
  | helpText : String → EarlyExit
  | usageError : String → EarlyExit
  deriving Repr, DecidableEq

/-- Help text generated by argh for the top-level `Cli` record (derived
from the doc comments and subcommand names in main.rs; no theorem below
inspects its exact wording). -/
def cliHelp : String :=
  "Usage: data-mirror <command> [<args>]\n\nData Mirror CLI\n\nOptions:\n  --help, help      display usage information\n\nCommands:\n  egress            Moving data out\n  ingress           Moving data in"

/-- Help text generated by argh for the `egress` subcommand. -/
def egressHelp : String :=
  "Usage: data-mirror egress [--type <type>]\n\nMoving data out\n\nOptions:\n  --type            type of database (defaults to postgres)\n  --help, help      display usage information"

/-- Help text generated by argh for the `ingress` subcommand. -/
def ingressHelp : String :=
  "Usage: data-mirror ingress [--type <type>]\n\nMoving data in\n\nOptions:\n  --type            type of database (defaults to postgres)\n  --help, help      display usage information"

/-- Usage-error message produced by argh when the required subcommand is
absent from the argument list. -/
def missingSubcommandMsg : String :=
  "One of the following subcommands must be present:\n    egress\n    ingress\n"

/-- Usage-error message produced by argh for a token it cannot bind. -/
def unrecognizedMsg (arg : String) : String :=
  "Unrecognized argument: " ++ arg ++ "\n"

/-- Usage-error message produced by argh for an option missing its value. -/
def noValueMsg : String :=
  "No value provided for option --type.\n"

/-- Usage-error message produced by argh when a non-repeating option is
given twice. -/
def duplicateMsg : String :=
  "duplicate values provided for --type\n"

/-- Usage-error message produced by argh for option tokens after the bare
word `help`. -/
def trailingAfterHelpMsg : String :=
  "Trailing arguments are not allowed after help.\n"

/-- A token is treated as an option token when its first character is a
dash (Rust `next_arg.starts_with("-")`). -/
def startsWithDash (s : String) : Bool :=
  match s.data with
  | [] => false
  | c :: _ => c = '-'

/-- Embeds argh's `parse_struct_args` loop as instantiated for `EgressCmd`
and `IngressCmd` (main.rs lines 17-33): no positional arguments, no nested
subcommand, and a single string option `--type` whose declared default is
`String::from("postgres")`.  Arguments: the remaining tokens, the slot for
the `--type` value (`none` while unset), the `help` flag, and the
`options_ended` flag set by the `--` terminator.  On success it returns the
resolved `type_` value. -/
def parseTypeCmd (subHelp : String) : List String → Option String → Bool → Bool → Except EarlyExit String
  | [], slot, help, _ =>
      if help then Except.error (EarlyExit.helpText subHelp)
      else Except.ok (slot.getD "postgres")
  | arg :: rest, slot, help, optionsEnded =>
      if (arg = "--help" ∨ arg = "help") ∧ ¬optionsEnded then
        parseTypeCmd subHelp rest slot true optionsEnded
      else if startsWithDash arg ∧ ¬optionsEnded then
        if arg = "--" then
          parseTypeCmd subHelp rest slot help true
        else if help then
          Except.error (EarlyExit.usageError trailingAfterHelpMsg)
        else if arg = "--type" then
          match rest with
          | [] => Except.error (EarlyExit.usageError noValueMsg)
          | v :: rest' =>
              match slot with
              | some _ => Except.error (EarlyExit.usageError duplicateMsg)
              | none => parseTypeCmd subHelp rest' (some v) help optionsEnded
        else
          Except.error (EarlyExit.usageError (unrecognizedMsg arg))
      else
        Except.error (EarlyExit.usageError (unrecognizedMsg arg))

/-- Embeds argh's `parse_struct_args` loop as instantiated for the
top-level `Cli` record (main.rs lines 3-8): no options of its own, no
positional arguments, and a required subcommand matched against the
literal names `egress` and `ingress`.  When the bare help trigger was seen
before the subcommand name, argh forwards a help trigger to the subcommand
parser; when the loop ends with no subcommand, the required-field check
fails. -/
def parseCli : List String → Bool → Bool → Except EarlyExit Cli
  | [], help, _ =>
      if help then Except.error (EarlyExit.helpText cliHelp)
      else Except.error (EarlyExit.usageError missingSubcommandMsg)
  | arg :: rest, help, optionsEnded =>
      if (arg = "--help" ∨ arg = "help") ∧ ¬optionsEnded then
        parseCli rest true optionsEnded
      else if startsWithDash arg ∧ ¬optionsEnded then
        if arg = "--" then
          parseCli rest help true
        else if help then
          Except.error (EarlyExit.usageError trailingAfterHelpMsg)
        else
          Except.error (EarlyExit.usageError (unrecognizedMsg arg))
      else if arg = "egress" then
        (parseTypeCmd egressHelp (if help then "help" :: rest else rest) none false false).map
          (fun t => Cli.mk (Commands.Egress (EgressCmd.mk t)))
      else if arg = "ingress" then
        (parseTypeCmd ingressHelp (if help then "help" :: rest else rest) none false false).map
          (fun t => Cli.mk (Commands.Ingress (IngressCmd.mk t)))
      else
        Except.error (EarlyExit.usageError (unrecognizedMsg arg))

/-- Observable outcome of one process run: the bytes written to standard
output, the bytes written to standard error, and the exit status. -/
structure RunResult where
  stdout : String
  stderr : String
  exitCode : Nat
  deriving Repr, DecidableEq

/-- Mirrors the `match cli.command` dispatch in `main` (main.rs lines
38-45): each arm prints exactly one line via `println!` and `main` then
returns, giving exit status 0. -/
def dispatch (cli : Cli) : RunResult :=
  match cli.command with
  | Commands.Egress cmd =>
      RunResult.mk ("Running egress with type: " ++ cmd.type_ ++ "\n") "" 0
  | Commands.Ingress cmd =>
      RunResult.mk ("Running ingress with type: " ++ cmd.type_ ++ "\n") "" 0

/-- Embeds the whole program: `argh::from_env` (main.rs line 36) followed
by the dispatch.  `from_env` prints an `Ok`-status early exit (help) to
standard output followed by a newline and exits 0, and prints an
`Err`-status early exit (usage error) to standard error followed by a
newline and exits 1. -/
def run (args : List String) : RunResult :=
  match parseCli args false false with
  | Except.ok cli => dispatch cli
  | Except.error (EarlyExit.helpText out) => RunResult.mk (out ++ "\n") "" 0
  | Except.error (EarlyExit.usageError out) => RunResult.mk "" (out ++ "\n") 1

/-- Appending the newline printed by `println!` or `eprintln!` never yields
the empty string. -/
lemma append_newline_ne_empty (s : String) : s ++ "\n" ≠ "" := by
  intro h
  have hl := congrArg String.length h
  rw [String.length_append] at hl
  rw [show String.length "\n" = 1 by decide, show String.length "" = 0 by decide] at hl
  omega

/-- The dispatch in `main` always exits with status 0: both match arms only
print and fall through to the end of `main`. -/
lemma dispatch_exitCode (cli : Cli) : (dispatch cli).exitCode = 0 := by
  rcases cli with ⟨cmd⟩
  cases cmd <;> rfl

/-- The dispatch in `main` writes nothing to standard error. -/
lemma dispatch_stderr (cli : Cli) : (dispatch cli).stderr = "" := by
  rcases cli with ⟨cmd⟩
  cases cmd <;> rfl

/-- A first token that is none of the subcommand names, the help triggers,
or the option terminator makes the top-level parse fail with the
unrecognized-argument usage error. -/
lemma parseCli_first_excluded (a : String) (rest : List String)
    (h1 : a ≠ "egress") (h2 : a ≠ "ingress") (h3 : a ≠ "--help")
    (h4 : a ≠ "help") (h5 : a ≠ "--") :
    parseCli (a :: rest) false false =
      Except.error (EarlyExit.usageError (unrecognizedMsg a)) := by
  rcases Bool.eq_false_or_eq_true (startsWithDash a) with hd | hd <;>
    simp [parseCli, h1, h2, h3, h4, h5, hd]

/-- Run-level consequence of `parseCli_first_excluded`: the process prints
the usage error to standard error and exits 1. -/
lemma run_first_excluded (a : String) (rest : List String)
    (h1 : a ≠ "egress") (h2 : a ≠ "ingress") (h3 : a ≠ "--help")
    (h4 : a ≠ "help") (h5 : a ≠ "--") :
    run (a :: rest) = RunResult.mk "" (unrecognizedMsg a ++ "\n") 1 := by
  unfold run
  rw [parseCli_first_excluded a rest h1 h2 h3 h4 h5]

/-- If the token `--type` occurs nowhere in the remaining arguments, the
subcommand parse can only succeed with the value already in the slot, or
with the declared default `postgres` when the slot is empty. -/
lemma parseTypeCmd_ok_of_no_type (subHelp : String) :
    ∀ (args : List String) (slot : Option String) (help optionsEnded : Bool) (t : String),
      "--type" ∉ args →
      parseTypeCmd subHelp args slot help optionsEnded = Except.ok t →
      t = slot.getD "postgres" := by
  intro args
  induction args with
  | nil =>
      intro slot help optionsEnded t _ hok
      cases help with
      | false => simpa [parseTypeCmd] using hok.symm
      | true => simp [parseTypeCmd] at hok
  | cons a rest ih =>
      intro slot help optionsEnded t hmem hok
      have ha : a ≠ "--type" := by
        intro e
        exact hmem (by simp [e])
      have hrest : "--type" ∉ rest := fun h => hmem (List.mem_cons_of_mem _ h)
      rw [parseTypeCmd.eq_def] at hok
      dsimp only at hok
      by_cases h1 : (a = "--help" ∨ a = "help") ∧ ¬(optionsEnded = true)
      · rw [if_pos h1] at hok
        exact ih slot true optionsEnded t hrest hok
      · rw [if_neg h1] at hok
        by_cases h2 : startsWithDash a = true ∧ ¬(optionsEnded = true)
        · rw [if_pos h2] at hok
          by_cases h3 : a = "--"
          · rw [if_pos h3] at hok
            exact ih slot help true t hrest hok
          · rw [if_neg h3] at hok
            cases help with
            | true => simp at hok
            | false =>
                rw [if_neg (by simp)] at hok
                rw [if_neg ha] at hok
                simp at hok
        · rw [if_neg h2] at hok
          simp at hok

/-- If the token `--type` occurs nowhere in the argument list, a successful
parse resolves the command's `type_` field to `postgres`. -/
lemma parseCli_ok_of_no_type :
    ∀ (args : List String) (help optionsEnded : Bool) (cli : Cli),
      "--type" ∉ args →
      parseCli args help optionsEnded = Except.ok cli →
      cli.command.typeOf = "postgres" := by
  intro args
  induction args with
  | nil =>
      intro help optionsEnded cli _ hok
      cases help <;> simp [parseCli] at hok
  | cons a rest ih =>
      intro help optionsEnded cli hmem hok
      have hrest : "--type" ∉ rest := fun h => hmem (List.mem_cons_of_mem _ h)
      have hm : "--type" ∉ (if help then "help" :: rest else rest) := by
        cases help
        · simpa using hrest
        · intro h
          rcases List.mem_cons.mp h with h | h
          · exact absurd h (by decide)
          · exact hrest h
      rw [parseCli] at hok
      by_cases h1 : (a = "--help" ∨ a = "help") ∧ ¬(optionsEnded = true)
      · rw [if_pos h1] at hok
        exact ih true optionsEnded cli hrest hok
      · rw [if_neg h1] at hok
        by_cases h2 : startsWithDash a = true ∧ ¬(optionsEnded = true)
        · rw [if_pos h2] at hok
          by_cases h3 : a = "--"
          · rw [if_pos h3] at hok
            exact ih help true cli hrest hok
          · rw [if_neg h3] at hok
            cases help <;> simp at hok
        · rw [if_neg h2] at hok
          by_cases h4 : a = "egress"
          · rw [if_pos h4] at hok
            cases hpt : parseTypeCmd egressHelp (if help then "help" :: rest else rest) none false false with
            | ok t =>
                rw [hpt] at hok
                simp only [Except.map] at hok
                have ht : t = (none : Option String).getD "postgres" :=
                  parseTypeCmd_ok_of_no_type egressHelp _ none false false t hm hpt
                cases hok
                simpa [Commands.typeOf] using ht
            | error e =>
                rw [hpt] at hok
                simp [Except.map] at hok
          · rw [if_neg h4] at hok
            by_cases h5 : a = "ingress"
            · rw [if_pos h5] at hok
              cases hpt : parseTypeCmd ingressHelp (if help then "help" :: rest else rest) none false false with
              | ok t =>
                  rw [hpt] at hok
                  simp only [Except.map] at hok
                  have ht : t = (none : Option String).getD "postgres" :=
                    parseTypeCmd_ok_of_no_type ingressHelp _ none false false t hm hpt
                  cases hok
                  simpa [Commands.typeOf] using ht
              | error e =>
                  rw [hpt] at hok
                  simp [Except.map] at hok
            · rw [if_neg h5] at hok
              simp at hok

end DataMirror

namespace DataMirror

/-- C1: for every valid egress invocation, the process exits 0 and prints
exactly the line `Running egress with type: <resolved>`, where `<resolved>`
is the given `--type` value, else `postgres`. -/
theorem egress_success (X : String) :
    run ["egress"] = RunResult.mk ("Running egress with type: postgres\n") "" 0 ∧
    run ["egress", "--type", X] = RunResult.mk ("Running egress with type: " ++ X ++ "\n") "" 0 := by
  constructor <;> rfl

/-- C2: for every valid ingress invocation, the process exits 0 and prints
exactly the line `Running ingress with type: <resolved>`, where `<resolved>`
is the given `--type` value, else `postgres`. -/
theorem ingress_success (X : String) :
    run ["ingress"] = RunResult.mk ("Running ingress with type: postgres\n") "" 0 ∧
    run ["ingress", "--type", X] = RunResult.mk ("Running ingress with type: " ++ X ++ "\n") "" 0 := by
  constructor <;> rfl

/-- C3 counterexample: the argument list whose first token is `--help` has
a first token that is neither `egress` nor `ingress`, yet the process exits
with status 0 (argh treats it as a help request), refuting the claim that
every such invocation exits non-zero. -/
theorem first_token_invalid_counterexample :
    "--help" ≠ "egress" ∧ "--help" ≠ "ingress" ∧ (run ["--help"]).exitCode = 0 :=
  ⟨by decide, by decide, rfl⟩

/-- C3 amended: for every invocation whose first token is neither `egress`
nor `ingress` nor one of the argh-recognized tokens `--help`, `help` and
`--` (including the empty argument list), the process exits non-zero and
writes nothing at all to standard output — in particular no line matching
the success format. -/
theorem first_token_invalid_amended (args : List String)
    (h1 : args.head? ≠ some "egress") (h2 : args.head? ≠ some "ingress")
    (h3 : args.head? ≠ some "--help") (h4 : args.head? ≠ some "help")
    (h5 : args.head? ≠ some "--") :
    (run args).exitCode ≠ 0 ∧ (run args).stdout = "" := by
  cases args with
  | nil => exact ⟨by decide, rfl⟩
  | cons a rest =>
      rw [run_first_excluded a rest (by simpa using h1) (by simpa using h2)
        (by simpa using h3) (by simpa using h4) (by simpa using h5)]
      exact ⟨by simp, rfl⟩

/-- Witness for the amended C3, at the spec scenario input `["transform"]`. -/
theorem first_token_invalid_amended_witness :
    (run ["transform"]).exitCode ≠ 0 ∧ (run ["transform"]).stdout = "" :=
  first_token_invalid_amended ["transform"] (by decide) (by decide) (by decide)
    (by decide) (by decide)

/-- C4: every parsing failure (missing first token, unrecognized first
token, or `--type` without its value) ends the process with a non-zero exit
status and a message on standard error; conversely, every run that exits
non-zero is exactly the usage-error path of the parser, which writes the
error message to standard error, nothing to standard output, and exits 1 —
the only error path in the program. -/
theorem usage_error_only_error_path (args : List String) :
    ((run []).exitCode ≠ 0 ∧ (run []).stderr ≠ "") ∧
    ((run ["egress", "--type"]).exitCode ≠ 0 ∧ (run ["egress", "--type"]).stderr ≠ "") ∧
    ((run ["ingress", "--type"]).exitCode ≠ 0 ∧ (run ["ingress", "--type"]).stderr ≠ "") ∧
    (∀ a, args.head? = some a → a ≠ "egress" → a ≠ "ingress" → a ≠ "--help" →
      a ≠ "help" → a ≠ "--" → (run args).exitCode ≠ 0 ∧ (run args).stderr ≠ "") ∧
    ((run args).exitCode ≠ 0 →
      ∃ msg, parseCli args false false = Except.error (EarlyExit.usageError msg) ∧
        (run args).stderr = msg ++ "\n" ∧ (run args).stdout = "" ∧
        (run args).exitCode = 1) := by
  refine ⟨⟨by decide, by decide⟩, ⟨by decide, by decide⟩, ⟨by decide, by decide⟩, ?_, ?_⟩
  · intro a hhead hna1 hna2 hna3 hna4 hna5
    cases args with
    | nil => simp at hhead
    | cons b rest =>
        have hb : b = a := by simpa using hhead
        subst hb
        rw [run_first_excluded b rest hna1 hna2 hna3 hna4 hna5]
        refine ⟨by simp, ?_⟩
        show unrecognizedMsg b ++ "\n" ≠ ""
        exact append_newline_ne_empty _
  · intro hne
    cases hp : parseCli args false false with
    | ok cli =>
        have hr : run args = dispatch cli := by
          unfold run
          rw [hp]
        rw [hr] at hne
        exact absurd (dispatch_exitCode cli) hne
    | error ee =>
        cases ee with
        | helpText out =>
            have hr : run args = RunResult.mk (out ++ "\n") "" 0 := by
              unfold run
              rw [hp]
            rw [hr] at hne
            exact absurd rfl hne
        | usageError out =>
            have hr : run args = RunResult.mk "" (out ++ "\n") 1 := by
              unfold run
              rw [hp]
            exact ⟨out, rfl, by rw [hr], by rw [hr], by rw [hr]⟩

/-- Witness for C4: the unrecognized-token and only-error-path parts at the
concrete input `["transform"]`. -/
theorem usage_error_only_error_path_witness :
    (run ["transform"]).exitCode ≠ 0 ∧ (run ["transform"]).stderr ≠ "" :=
  (usage_error_only_error_path ["transform"]).2.2.2.1 "transform" rfl (by decide)
    (by decide) (by decide) (by decide) (by decide)

/-- C5: whenever the token `--type` does not occur in the argument list and
parsing succeeds, the parsed command's `type_` field is exactly the string
`postgres` (the declared default `String::from("postgres")`). -/
theorem type_defaults_to_postgres (args : List String) (cli : Cli)
    (h1 : "--type" ∉ args) (h2 : parseCli args false false = Except.ok cli) :
    cli.command.typeOf = "postgres" :=
  parseCli_ok_of_no_type args false false cli h1 h2

/-- Witness for C5 at the concrete input `["egress"]`. -/
theorem type_defaults_to_postgres_witness :
    (Cli.mk (Commands.Egress (EgressCmd.mk "postgres"))).command.typeOf = "postgres" :=
  type_defaults_to_postgres ["egress"]
    (Cli.mk (Commands.Egress (EgressCmd.mk "postgres"))) (by decide) rfl

/-- C6: the database-type value is never validated or transformed: for
every string X supplied as the value of `--type`, parsing succeeds with the
`type_` field equal to X itself, and X appears character-for-character in
the printed line. -/
theorem type_value_verbatim (X : String) :
    parseCli ["egress", "--type", X] false false =
      Except.ok (Cli.mk (Commands.Egress (EgressCmd.mk X))) ∧
    parseCli ["ingress", "--type", X] false false =
      Except.ok (Cli.mk (Commands.Ingress (IngressCmd.mk X))) ∧
    (run ["egress", "--type", X]).stdout = "Running egress with type: " ++ X ++ "\n" ∧
    (run ["ingress", "--type", X]).stdout = "Running ingress with type: " ++ X ++ "\n" :=
  ⟨rfl, rfl, rfl, rfl⟩

/-- C7: the program is deterministic in its argument list — two runs with
identical argument lists produce identical standard output, standard error
and exit status. -/
theorem run_deterministic (a b : List String) (h : a = b) : run a = run b := by
  rw [h]

/-- Witness for C7 at the concrete input `["egress"]`. -/
theorem run_deterministic_witness : run ["egress"] = run ["egress"] :=
  run_deterministic ["egress"] ["egress"] rfl

/-- C8: every successfully parsed `Cli` value has its `command` field equal
to exactly one of the two variants `Egress` or `Ingress` (the tagged union
admits no other state), and the run's entire observable behaviour is the
single dispatch applied to that unmodified value. -/
theorem cli_command_exactly_one_variant (args : List String) (cli : Cli)
    (h : parseCli args false false = Except.ok cli) :
    ((∃ c, cli.command = Commands.Egress c) ∨ (∃ c, cli.command = Commands.Ingress c)) ∧
    run args = dispatch cli := by
  constructor
  · cases hc : cli.command with
    | Egress c => exact Or.inl ⟨c, rfl⟩
    | Ingress c => exact Or.inr ⟨c, rfl⟩
  · unfold run
    rw [h]

/-- Witness for C8 at the concrete input `["ingress"]`. -/
theorem cli_command_exactly_one_variant_witness :
    ((∃ c, (Cli.mk (Commands.Ingress (IngressCmd.mk "postgres"))).command = Commands.Egress c) ∨
     (∃ c, (Cli.mk (Commands.Ingress (IngressCmd.mk "postgres"))).command = Commands.Ingress c)) ∧
    run ["ingress"] = dispatch (Cli.mk (Commands.Ingress (IngressCmd.mk "postgres"))) :=
  cli_command_exactly_one_variant ["ingress"]
    (Cli.mk (Commands.Ingress (IngressCmd.mk "postgres"))) rfl

/-- C9: a help invocation (`["--help"]` at the top level, or
`["egress", "--help"]` inside a subcommand) prints the generated help text
to standard output and exits with status 0, even though `--help` is neither
`egress` nor `ingress` — help is not routed through the non-zero-exit
usage-error path. -/
theorem help_exits_zero :
    run ["--help"] = RunResult.mk (cliHelp ++ "\n") "" 0 ∧
    run ["egress", "--help"] = RunResult.mk (egressHelp ++ "\n") "" 0 ∧
    "--help" ≠ "egress" ∧ "--help" ≠ "ingress" :=
  ⟨rfl, rfl, by decide, by decide⟩

/-- C10: on every successfully parsed invocation the bytes written to
standard output are exactly the success message followed by one trailing
newline, the exit status is 0, and nothing is written to standard error. -/
theorem success_output_exact (args : List String) (cli : Cli)
    (h : parseCli args false false = Except.ok cli) :
    (run args).stderr = "" ∧ (run args).exitCode = 0 ∧
    ((run args).stdout = "Running egress with type: " ++ cli.command.typeOf ++ "\n" ∨
     (run args).stdout = "Running ingress with type: " ++ cli.command.typeOf ++ "\n") := by
  unfold run
  rw [h]
  rcases cli with ⟨cmd⟩
  cases cmd with
  | Egress c => exact ⟨rfl, rfl, Or.inl rfl⟩
  | Ingress c => exact ⟨rfl, rfl, Or.inr rfl⟩

/-- Witness for C10 at the concrete input `["egress"]`. -/
theorem success_output_exact_witness :
    (run ["egress"]).stderr = "" ∧ (run ["egress"]).exitCode = 0 ∧
    ((run ["egress"]).stdout =
        "Running egress with type: " ++
          (Cli.mk (Commands.Egress (EgressCmd.mk "postgres"))).command.typeOf ++ "\n" ∨
     (run ["egress"]).stdout =
        "Running ingress with type: " ++
          (Cli.mk (Commands.Egress (EgressCmd.mk "postgres"))).command.typeOf ++ "\n") :=
  success_output_exact ["egress"] (Cli.mk (Commands.Egress (EgressCmd.mk "postgres"))) rfl

end DataMirror
